import Mathlib

/-!
Verification of the photo-map-viewer metadata extraction pipeline.

This file embeds the pure control flow and arithmetic of `photos_util.py`
and the dataset-building path of `app.py`.  Python exceptions are made
explicit via the `Except` monad, dictionary accesses become `Option`
lookups that raise `KeyError` when missing, and Python floats are modelled
by rationals.  The behaviour of the external library routines
(`datetime.strptime`, `float`, `pathlib.Path.suffix`) is embedded at the
level of their observable input/output contract.
-/

deriving instance DecidableEq for Except

/-- The Python exception kinds that the embedded code paths can raise. -/
inductive PyError where
  | keyError
  | valueError
  | unboundLocalError
  | typeError
  | attributeError
deriving DecidableEq

/-- An EXIF scalar value as seen by Python's `float(i)` coercion: either a
numeric value (ints, floats and EXIF rationals all coerce), or a value on
which `float` raises `ValueError`. -/
inductive ExifNum where
  | numeric (q : ℚ)
  | nonNumeric (s : String)
deriving DecidableEq

/-- Python's `float(i)`: numeric values coerce, anything else raises
`ValueError`. -/
def pyFloat : ExifNum → Except PyError ℚ
  | .numeric q => .ok q
  | .nonNumeric _ => .error .valueError

/-- Python's `str.upper()` (ASCII characters, the only ones hemisphere
references use). -/
def pyUpper (s : String) : String := String.mk (s.toList.map Char.toUpper)

/-- Python's `str.lower()` (ASCII characters, the only ones file
extensions use). -/
def pyLower (s : String) : String := String.mk (s.toList.map Char.toLower)

/-- `convert_coords_to_decimal` from `photos_util.py`.

The source first decides the sign multiplier: `ref.upper()` in `['W','S']`
sets `mul = -1`, in `['E','N']` sets `mul = 1`, anything else only prints a
message and leaves `mul` unbound.  Then all three coordinate components are
coerced with `float` (the first non-numeric one raises `ValueError`), and
finally `mul * (coords[0] + coords[1]/60 + coords[2]/3600)` is returned;
when `mul` was never assigned this last expression raises
`UnboundLocalError`. -/
def convert_coords_to_decimal (coords : ExifNum × ExifNum × ExifNum) (ref : String) :
    Except PyError ℚ :=
  let mulOpt : Option ℚ :=
    if pyUpper ref = "W" ∨ pyUpper ref = "S" then some (-1)
    else if pyUpper ref = "E" ∨ pyUpper ref = "N" then some 1
    else none
  match pyFloat coords.1, pyFloat coords.2.1, pyFloat coords.2.2 with
  | .ok d, .ok m, .ok s =>
    match mulOpt with
    | some mul => .ok (mul * (d + m / 60 + s / 3600))
    | none => .error .unboundLocalError
  | .error e, _, _ => .error e
  | .ok _, .error e, _ => .error e
  | .ok _, .ok _, .error e => .error e

/-- `pathlib.Path(p).suffix` of a final path component: the substring from
the last dot, provided that dot is neither the first nor the last
character; otherwise the empty string. -/
def pySuffix (name : String) : String :=
  let cs := name.toList
  match cs.reverse.findIdx? (fun c => c == '.') with
  | none => ""
  | some j =>
    let i := cs.length - 1 - j
    if 0 < i ∧ i + 1 < cs.length then String.mk (cs.drop i) else ""

/-- The GPS sub-dictionary produced by `get_gps_info`: since `"GPSInfo"` is
present in PIL's tag registry, `exif.get_ifd` always yields a dictionary
(possibly empty), whose relevant named keys may each be absent. -/
structure GpsInfo where
  gpsLatitude : Option (ExifNum × ExifNum × ExifNum)
  gpsLatitudeRef : Option String
  gpsLongitude : Option (ExifNum × ExifNum × ExifNum)
  gpsLongitudeRef : Option String
deriving DecidableEq

/-- A parsed calendar date/time, as produced by `datetime.strptime` with
the format `%Y:%m:%d %H:%M:%S`. -/
structure PyDate where
  year : ℕ
  month : ℕ
  day : ℕ
  hour : ℕ
  minute : ℕ
  second : ℕ
deriving DecidableEq

/-- The raw `DateTime` EXIF tag value, classified by whether it matches the
exact format `YYYY:MM:DD HH:MM:SS`: a well-formed value carries its parse,
a malformed one is kept as the raw string. -/
inductive DateTimeTag where
  | wellFormed (d : PyDate)
  | malformed (s : String)
deriving DecidableEq

/-- `datetime.strptime(value, '%Y:%m:%d %H:%M:%S')`: parses a well-formed
value, raises `ValueError` on a malformed one. -/
def strptimeExif : DateTimeTag → Except PyError PyDate
  | .wellFormed d => .ok d
  | .malformed _ => .error .valueError

/-- One photo file as the extractor sees it: its base name and the EXIF
data obtained from `get_labeled_exif` / `get_gps_info`. -/
structure Photo where
  name : String
  gps : GpsInfo
  dateTime : Option DateTimeTag
deriving DecidableEq

/-- One row assembled by `construct_df` for a successfully-parsed photo. -/
structure Record where
  filename : String
  datetime : PyDate
  latitude : ℚ
  longitude : ℚ
  day : ℤ
deriving DecidableEq

/-- The body of the `try` block in `construct_df` for one photo, in Python
evaluation order: the four GPS dictionary accesses raise `KeyError` when
the key is absent, each coordinate pair is converted as it is read, then
the `DateTime` tag is fetched and parsed. -/
def buildRecord (photo : Photo) : Except PyError Record :=
  match photo.gps.gpsLatitude with
  | none => .error .keyError
  | some latCoords =>
    match photo.gps.gpsLatitudeRef with
    | none => .error .keyError
    | some latRef =>
      match convert_coords_to_decimal latCoords latRef with
      | .error e => .error e
      | .ok latitude =>
        match photo.gps.gpsLongitude with
        | none => .error .keyError
        | some lonCoords =>
          match photo.gps.gpsLongitudeRef with
          | none => .error .keyError
          | some lonRef =>
            match convert_coords_to_decimal lonCoords lonRef with
            | .error e => .error e
            | .ok longitude =>
              match photo.dateTime with
              | none => .error .keyError
              | some dtRaw =>
                match strptimeExif dtRaw with
                | .error e => .error e
                | .ok date =>
                  .ok { filename := photo.name, datetime := date,
                        latitude := latitude, longitude := longitude,
                        day := (date.day : ℤ) }

/-- `construct_df` from `photos_util.py`: files whose lowered suffix is not
in `['.jpg', '.jpeg', '.heic']` are skipped outright; for the rest the
`try` body runs, `except KeyError` skips that single file, and any other
exception propagates and aborts the whole batch. -/
def construct_df : List Photo → Except PyError (List Record)
  | [] => .ok []
  | photo :: rest =>
    if pyLower (pySuffix photo.name) ∈ [".jpg", ".jpeg", ".heic"] then
      match buildRecord photo with
      | .ok r => (construct_df rest).map (fun rs => r :: rs)
      | .error .keyError => construct_df rest
      | .error e => .error e
    else
      construct_df rest

/-- A directory as seen by `get_photos_from_path`: whether the path exists
and the top-level entries `os.listdir` would return (each entry carried
together with the EXIF data the extractor would later read from it). -/
structure Directory where
  pathExists : Bool
  listing : List Photo

/-- `get_photos_from_path` from `photos_util.py`: returns `None` when the
path does not exist (after printing a diagnostic), otherwise the top-level
entries whose `Path(p).suffix.lower()` is in `extensions`. -/
def get_photos_from_path (directory : Directory)
    (extensions : List String := [".jpg", ".jpeg", ".heic"]) : Option (List Photo) :=
  if directory.pathExists then
    some (directory.listing.filter (fun p => pyLower (pySuffix p.name) ∈ extensions))
  else
    none

/-- The day-normalization step of `get_df` in `app.py`:
`df.day = df.day - (df.day.min() - 1)`.  On an empty frame `construct_df`
produced no columns, so the attribute access `df.day` raises
`AttributeError`; otherwise every day is shifted by the minimum. -/
def normalizeDays : List Record → Except PyError (List Record)
  | [] => .error .attributeError
  | r :: rs =>
    let m := (rs.map Record.day).foldl min r.day
    .ok ((r :: rs).map (fun x => { x with day := x.day - (m - 1) }))

/-- A row of the final DataFrame returned by `get_df`, after
`df.day = df.day.astype(str)`. -/
structure DfRow where
  filename : String
  datetime : PyDate
  latitude : ℚ
  longitude : ℚ
  day : String
deriving DecidableEq

/-- The `astype(str)` step applied to one record. -/
def recordToRow (r : Record) : DfRow :=
  { filename := r.filename, datetime := r.datetime, latitude := r.latitude,
    longitude := r.longitude, day := toString r.day }

/-- The run directory state that `get_df` consults: whether
`saved_df.csv` exists (and the rows `read_csv` yields from it), and the
assets directory. -/
structure AppFs where
  savedDfPresent : Bool
  savedDf : List DfRow
  assets : Directory

/-- `construct_df` applied to the raw result of `get_photos_from_path`, as
`get_df` does: when discovery returned `None`, the `for photo in photos`
loop header raises `TypeError`. -/
def construct_df_arg : Option (List Photo) → Except PyError (List Record)
  | none => .error .typeError
  | some photos => construct_df photos

/-- `get_df` from `app.py`: return the cached rows when `saved_df.csv`
exists; otherwise discover photos, build the frame, normalize the day
column, convert it to strings, write the cache and return the frame. -/
def get_df (fs : AppFs) : Except PyError (List DfRow) :=
  if fs.savedDfPresent then
    .ok fs.savedDf
  else
    match construct_df_arg (get_photos_from_path fs.assets) with
    | .error e => .error e
    | .ok rs =>
      match normalizeDays rs with
      | .error e => .error e
      | .ok ns => .ok (ns.map recordToRow)

/-- A photo whose GPS fields, when present, convert without raising: every
present coordinate/reference pair yields a decimal value.  This is the
precondition under which a missing tag is the first failure the `try`
block hits. -/
def presentGpsParses (p : Photo) : Prop :=
  (∀ c r, p.gps.gpsLatitude = some c → p.gps.gpsLatitudeRef = some r →
    ∃ q, convert_coords_to_decimal c r = .ok q) ∧
  (∀ c r, p.gps.gpsLongitude = some c → p.gps.gpsLongitudeRef = some r →
    ∃ q, convert_coords_to_decimal c r = .ok q)

/-! ### Concrete data used in worked examples and witnesses -/

/-- The capture date 2022:06:15 10:00:00. -/
def goodDate : PyDate := ⟨2022, 6, 15, 10, 0, 0⟩

/-- A complete, well-formed GPS block: (10, 30, 0) N and (20, 0, 0) E. -/
def goodGps : GpsInfo :=
  ⟨some (.numeric 10, .numeric 30, .numeric 0), some "N",
   some (.numeric 20, .numeric 0, .numeric 0), some "E"⟩

/-- A fully tagged photo that the extractor processes successfully. -/
def goodPhoto : Photo := ⟨"a.jpg", goodGps, some (.wellFormed goodDate)⟩

/-- The record `construct_df` assembles from `goodPhoto`, with its fields
written exactly as the extractor computes them. -/
def goodRecordRaw : Record :=
  ⟨"a.jpg", goodDate, 1 * (10 + 30 / 60 + 0 / 3600), 1 * (20 + 0 / 60 + 0 / 3600), 15⟩

/-- A photo whose `DateTime` tag does not match `YYYY:MM:DD HH:MM:SS`. -/
def badDatePhoto : Photo := ⟨"b.jpg", goodGps, some (.malformed "2022-06-15 10:00:00")⟩

/-- A photo whose latitude degrees component is not numeric. -/
def badCoordPhoto : Photo :=
  ⟨"d.jpg", ⟨some (.nonNumeric "oops", .numeric 30, .numeric 0), some "N",
             some (.numeric 20, .numeric 0, .numeric 0), some "E"⟩,
   some (.wellFormed goodDate)⟩

/-- A photo that is missing `GPSLongitude` (and `GPSLongitudeRef`) but
whose present latitude has a non-numeric component. -/
def missingLonPhoto : Photo :=
  ⟨"c.jpg", ⟨some (.nonNumeric "oops", .numeric 0, .numeric 0), some "N", none, none⟩,
   some (.wellFormed goodDate)⟩

/-- A photo with no GPS tags and no DateTime tag at all. -/
def missingAllPhoto : Photo := ⟨"m.jpg", ⟨none, none, none, none⟩, none⟩

/-- A non-image file as the extractor would see it. -/
def textFilePhoto : Photo := ⟨"notes.txt", ⟨none, none, none, none⟩, none⟩

/-- A record carrying only a day value, for the day-normalization example. -/
def dayRec (d : ℤ) : Record := ⟨"", ⟨0, 0, 0, 0, 0, 0⟩, 0, 0, d⟩

/-- A run directory with no cache and one fully tagged photo in assets. -/
def fs0 : AppFs := ⟨false, [], ⟨true, [goodPhoto]⟩⟩

/-- The rows `get_df` produces on `fs0`, with fields written exactly as the
pipeline computes them. -/
def rows0 : List DfRow :=
  [⟨"a.jpg", goodDate, 1 * (10 + 30 / 60 + 0 / 3600), 1 * (20 + 0 / 60 + 0 / 3600),
    toString ((15 : ℤ) - (15 - 1))⟩]

/-- A run directory with no cache and a nonexistent assets directory. -/
def noAssetsFs : AppFs := ⟨false, [], ⟨false, []⟩⟩

/-! ### Helper lemmas -/

/-- On a numeric coordinate triple, the conversion reduces to a sign
decision on the uppercased reference. -/
theorem convert_numeric_eq (d m s : ℚ) (ref : String) :
    convert_coords_to_decimal (.numeric d, .numeric m, .numeric s) ref =
      (if pyUpper ref = "W" ∨ pyUpper ref = "S" then
        Except.ok (-1 * (d + m / 60 + s / 3600))
      else if pyUpper ref = "E" ∨ pyUpper ref = "N" then
        Except.ok (1 * (d + m / 60 + s / 3600))
      else Except.error PyError.unboundLocalError) := by
  by_cases h1 : pyUpper ref = "W" ∨ pyUpper ref = "S"
  · simp [convert_coords_to_decimal, pyFloat, h1]
  · by_cases h2 : pyUpper ref = "E" ∨ pyUpper ref = "N"
    · simp [convert_coords_to_decimal, pyFloat, h1, h2]
    · simp [convert_coords_to_decimal, pyFloat, h1, h2]

/-- A left fold of `min` is bounded by its initial value. -/
theorem foldl_min_le_init (l : List ℤ) (a : ℤ) : l.foldl min a ≤ a := by
  induction l generalizing a with
  | nil => simp
  | cons x xs ih => exact le_trans (ih (min a x)) (min_le_left a x)

/-- A left fold of `min` is bounded by every list element. -/
theorem foldl_min_le_mem (l : List ℤ) (a b : ℤ) (hb : b ∈ l) : l.foldl min a ≤ b := by
  induction l generalizing a with
  | nil => cases hb
  | cons x xs ih =>
    rcases List.mem_cons.mp hb with h | h
    · subst h
      exact le_trans (foldl_min_le_init xs (min a b)) (min_le_right a b)
    · exact ih (min a x) h

/-- A left fold of `min` is either the initial value or a list element. -/
theorem foldl_min_mem (l : List ℤ) (a : ℤ) : l.foldl min a = a ∨ l.foldl min a ∈ l := by
  induction l generalizing a with
  | nil => exact Or.inl rfl
  | cons x xs ih =>
    rcases ih (min a x) with h | h
    · rcases min_cases a x with ⟨h1, _⟩ | ⟨h1, _⟩
      · exact Or.inl (by rw [List.foldl_cons, h, h1])
      · exact Or.inr (by rw [List.foldl_cons, h, h1]; exact List.mem_cons_self x xs)
    · exact Or.inr (List.mem_cons_of_mem x h)

/-- Unfolding `construct_df` at a photo whose try-block succeeds. -/
theorem construct_df_cons_ok (p : Photo) (l : List Photo) (r : Record)
    (hsuf : pyLower (pySuffix p.name) ∈ [".jpg", ".jpeg", ".heic"])
    (hb : buildRecord p = .ok r) :
    construct_df (p :: l) = (construct_df l).map (fun rs => r :: rs) := by
  simp [construct_df, hsuf, hb]

/-- Unfolding `construct_df` at a photo whose try-block raises an
exception other than `KeyError`: the whole batch aborts. -/
theorem construct_df_cons_error (p : Photo) (l : List Photo) (e : PyError)
    (hsuf : pyLower (pySuffix p.name) ∈ [".jpg", ".jpeg", ".heic"])
    (hb : buildRecord p = .error e) (hkey : e ≠ .keyError) :
    construct_df (p :: l) = .error e := by
  cases e with
  | keyError => exact absurd rfl hkey
  | valueError => simp [construct_df, hsuf, hb]
  | unboundLocalError => simp [construct_df, hsuf, hb]
  | typeError => simp [construct_df, hsuf, hb]
  | attributeError => simp [construct_df, hsuf, hb]

/-- Unfolding `construct_df` at a photo whose suffix is not accepted. -/
theorem construct_df_cons_skip (p : Photo) (l : List Photo)
    (hsuf : pyLower (pySuffix p.name) ∉ [".jpg", ".jpeg", ".heic"]) :
    construct_df (p :: l) = construct_df l := by
  simp [construct_df, hsuf]

/-- A photo whose try-block raises `KeyError` is skipped: the batch result
is unchanged by its presence at the head. -/
theorem construct_df_cons_keyError (p : Photo) (l : List Photo)
    (hb : buildRecord p = .error .keyError) :
    construct_df (p :: l) = construct_df l := by
  by_cases hsuf : pyLower (pySuffix p.name) ∈ [".jpg", ".jpeg", ".heic"] <;>
    simp [construct_df, hsuf, hb]

/-- Two inputs with the same batch result keep the same batch result when
the same photo is put in front of both. -/
theorem construct_df_cons_congr (a : Photo) (l1 l2 : List Photo)
    (h : construct_df l1 = construct_df l2) :
    construct_df (a :: l1) = construct_df (a :: l2) := by
  by_cases hsuf : pyLower (pySuffix a.name) ∈ [".jpg", ".jpeg", ".heic"]
  · cases hb : buildRecord a with
    | ok r => rw [construct_df_cons_ok a l1 r hsuf hb, construct_df_cons_ok a l2 r hsuf hb, h]
    | error e =>
      by_cases hkey : e = PyError.keyError
      · subst hkey
        rw [construct_df_cons_keyError a l1 hb, construct_df_cons_keyError a l2 hb, h]
      · rw [construct_df_cons_error a l1 e hsuf hb hkey,
            construct_df_cons_error a l2 e hsuf hb hkey]
  · rw [construct_df_cons_skip a l1 hsuf, construct_df_cons_skip a l2 hsuf, h]

/-- Appending to an input list whose prefix succeeds: the batch result is
the prefix records followed by whatever the tail produces. -/
theorem construct_df_append (ps l : List Photo) (rs : List Record)
    (h : construct_df ps = .ok rs) :
    construct_df (ps ++ l) = (construct_df l).map (fun ts => rs ++ ts) := by
  induction ps generalizing rs with
  | nil =>
    simp only [construct_df, Except.ok.injEq] at h
    subst h
    simp only [List.nil_append]
    cases construct_df l <;> simp [Except.map]
  | cons p ps ih =>
    rw [List.cons_append]
    by_cases hsuf : pyLower (pySuffix p.name) ∈ [".jpg", ".jpeg", ".heic"]
    · cases hb : buildRecord p with
      | ok r =>
        rw [construct_df_cons_ok p ps r hsuf hb] at h
        cases hc : construct_df ps with
        | ok ts =>
          rw [hc] at h
          simp only [Except.map, Except.ok.injEq] at h
          subst h
          rw [construct_df_cons_ok p (ps ++ l) r hsuf hb, ih ts hc]
          cases construct_df l <;> simp [Except.map]
        | error e => rw [hc] at h; simp [Except.map] at h
      | error e =>
        by_cases hkey : e = PyError.keyError
        · subst hkey
          rw [construct_df_cons_keyError p ps hb] at h
          rw [construct_df_cons_keyError p (ps ++ l) hb]
          exact ih rs h
        · rw [construct_df_cons_error p ps e hsuf hb hkey] at h
          simp at h
    · rw [construct_df_cons_skip p ps hsuf] at h
      rw [construct_df_cons_skip p (ps ++ l) hsuf]
      exact ih rs h

/-- A photo whose try-block raises `KeyError` is skipped wherever it
appears in the input list. -/
theorem construct_df_skip_middle (ps qs : List Photo) (p : Photo)
    (hb : buildRecord p = .error .keyError) :
    construct_df (ps ++ p :: qs) = construct_df (ps ++ qs) := by
  induction ps with
  | nil => simpa using construct_df_cons_keyError p qs hb
  | cons a ps ih =>
    rw [List.cons_append, List.cons_append]
    exact construct_df_cons_congr a _ _ ih

/-- A record assembled by the try-block carries the photo's base name and
the parsed date's day-of-month. -/
theorem buildRecord_ok_shape (p : Photo) (r : Record) (h : buildRecord p = .ok r) :
    r.filename = p.name ∧ r.day = (r.datetime.day : ℤ) := by
  unfold buildRecord at h
  repeat' split at h
  all_goals first
    | (injection h with h2; subst h2; exact ⟨rfl, rfl⟩)
    | injection h

/-- Day normalization on a nonempty record list subtracts
`min_day - 1` from every day, where `min_day` is the least raw day. -/
theorem normalizeDays_ok (r : Record) (rs : List Record) :
    ∃ m : ℤ,
      m ∈ (r :: rs).map Record.day ∧
      (∀ d ∈ (r :: rs).map Record.day, m ≤ d) ∧
      normalizeDays (r :: rs) =
        .ok ((r :: rs).map (fun x => { x with day := x.day - m + 1 })) := by
  refine ⟨(rs.map Record.day).foldl min r.day, ?_, ?_, ?_⟩
  · rcases foldl_min_mem (rs.map Record.day) r.day with h | h
    · rw [h]; exact List.mem_cons_self _ _
    · exact List.mem_cons_of_mem _ h
  · intro d hd
    rcases List.mem_cons.mp hd with h | h
    · subst h; exact foldl_min_le_init _ _
    · exact foldl_min_le_mem _ _ _ h
  · simp only [normalizeDays, Except.ok.injEq]
    apply List.map_congr_left
    intro x _
    have hday : x.day - ((rs.map Record.day).foldl min r.day - 1) =
        x.day - (rs.map Record.day).foldl min r.day + 1 := by ring
    rw [hday]

/-- A non-numeric first coordinate component makes the conversion raise
`ValueError`, whatever the reference letter. -/
theorem convert_error_of_nonNumeric (coords : ExifNum × ExifNum × ExifNum) (ref : String)
    (h : pyFloat coords.1 = .error .valueError) :
    convert_coords_to_decimal coords ref = .error .valueError := by
  unfold convert_coords_to_decimal
  rw [h]

/-- Under `presentGpsParses`, a photo missing any of the five required
tags makes the try-block raise `KeyError`: the missing key is the first
failure the block encounters. -/
theorem buildRecord_keyError_of_missing (p : Photo)
    (hmiss : p.gps.gpsLatitude = none ∨ p.gps.gpsLatitudeRef = none ∨
      p.gps.gpsLongitude = none ∨ p.gps.gpsLongitudeRef = none ∨ p.dateTime = none)
    (hok : presentGpsParses p) :
    buildRecord p = .error .keyError := by
  obtain ⟨hlat, hlon⟩ := hok
  unfold buildRecord
  cases h1 : p.gps.gpsLatitude with
  | none => rfl
  | some c1 =>
    cases h2 : p.gps.gpsLatitudeRef with
    | none => rfl
    | some r1 =>
      obtain ⟨q1, hq1⟩ := hlat c1 r1 h1 h2
      simp only [hq1]
      cases h3 : p.gps.gpsLongitude with
      | none => rfl
      | some c2 =>
        cases h4 : p.gps.gpsLongitudeRef with
        | none => rfl
        | some r2 =>
          obtain ⟨q2, hq2⟩ := hlon c2 r2 h3 h4
          simp only [hq2]
          cases h5 : p.dateTime with
          | none => rfl
          | some dt =>
            exfalso
            rcases hmiss with h | h | h | h | h <;> simp_all

/-- A fully GPS-tagged photo whose coordinates convert but whose
`DateTime` value is malformed makes the try-block raise `ValueError`. -/
theorem buildRecord_valueError_of_malformed (p : Photo)
    (c1 c2 : ExifNum × ExifNum × ExifNum) (r1 r2 : String) (q1 q2 : ℚ) (s : String)
    (hg : p.gps = ⟨some c1, some r1, some c2, some r2⟩)
    (hcv1 : convert_coords_to_decimal c1 r1 = .ok q1)
    (hcv2 : convert_coords_to_decimal c2 r2 = .ok q2)
    (hdt : p.dateTime = some (.malformed s)) :
    buildRecord p = .error .valueError := by
  simp [buildRecord, hg, hdt, hcv1, hcv2, strptimeExif]

/-- A photo whose latitude tag is present with a non-numeric first
component, together with a present latitude reference, makes the
try-block raise `ValueError`. -/
theorem buildRecord_valueError_of_badLat (p : Photo)
    (c1 : ExifNum × ExifNum × ExifNum) (r1 : String)
    (h1 : p.gps.gpsLatitude = some c1) (h2 : p.gps.gpsLatitudeRef = some r1)
    (hbad : pyFloat c1.1 = .error .valueError) :
    buildRecord p = .error .valueError := by
  have hcv := convert_error_of_nonNumeric c1 r1 hbad
  simp [buildRecord, h1, h2, hcv]

/-! ### Claim theorems -/

/-- C1: On numeric components and a recognized hemisphere reference,
`convert_coords_to_decimal` returns `deg + min/60 + sec/3600`, negated
for S/W and kept positive for N/E (case-insensitively via `upper()`); the
two worked examples evaluate to 10.5 and -10.5; and for non-negative
components the result is non-negative for N/E and non-positive for
S/W. -/
theorem claim1_convert_formula_sign :
    (∀ (d m s : ℚ) (ref : String),
        (pyUpper ref = "N" ∨ pyUpper ref = "E" ∨ pyUpper ref = "S" ∨ pyUpper ref = "W") →
        convert_coords_to_decimal (.numeric d, .numeric m, .numeric s) ref =
          .ok ((if pyUpper ref = "S" ∨ pyUpper ref = "W" then -1 else 1) *
            (d + m / 60 + s / 3600))) ∧
    convert_coords_to_decimal (.numeric 10, .numeric 30, .numeric 0) "N" = .ok (21 / 2) ∧
    convert_coords_to_decimal (.numeric 10, .numeric 30, .numeric 0) "S" = .ok (-(21 / 2)) ∧
    (∀ (d m s : ℚ) (ref : String) (q : ℚ), 0 ≤ d → 0 ≤ m → 0 ≤ s →
        convert_coords_to_decimal (.numeric d, .numeric m, .numeric s) ref = .ok q →
        ((pyUpper ref = "N" ∨ pyUpper ref = "E") → 0 ≤ q) ∧
        ((pyUpper ref = "S" ∨ pyUpper ref = "W") → q ≤ 0)) := by
  refine ⟨?_, ?_, ?_, ?_⟩
  · intro d m s ref h
    rw [convert_numeric_eq]
    rcases h with h | h | h | h <;> rw [h] <;> simp
  · have h : convert_coords_to_decimal (.numeric 10, .numeric 30, .numeric 0) "N" =
        .ok (1 * (10 + 30 / 60 + 0 / 3600)) := rfl
    rw [h]; norm_num
  · have h : convert_coords_to_decimal (.numeric 10, .numeric 30, .numeric 0) "S" =
        .ok (-1 * (10 + 30 / 60 + 0 / 3600)) := rfl
    rw [h]; norm_num
  · intro d m s ref q hd hm hs hq
    have hsum : 0 ≤ d + m / 60 + s / 3600 := by positivity
    rw [convert_numeric_eq] at hq
    by_cases h1 : pyUpper ref = "W" ∨ pyUpper ref = "S"
    · rw [if_pos h1] at hq
      simp only [Except.ok.injEq] at hq
      constructor
      · intro hne
        exfalso
        rcases h1 with h | h <;> rcases hne with h2 | h2 <;> rw [h] at h2 <;> simp at h2
      · intro _
        rw [← hq]; nlinarith
    · rw [if_neg h1] at hq
      by_cases h2 : pyUpper ref = "E" ∨ pyUpper ref = "N"
      · rw [if_pos h2] at hq
        simp only [Except.ok.injEq] at hq
        constructor
        · intro _; rw [← hq]; linarith
        · intro hsw
          exfalso
          rcases h2 with h | h <;> rcases hsw with h3 | h3 <;> rw [h] at h3 <;> simp at h3
      · rw [if_neg h2] at hq
        exact absurd hq (by simp)

/-- Witness for claim 1 at the concrete input ((10, 30, 0), "s"). -/
theorem claim1_witness :
    convert_coords_to_decimal (.numeric 10, .numeric 30, .numeric 0) "s" =
      .ok ((if pyUpper "s" = "S" ∨ pyUpper "s" = "W" then -1 else 1) *
        (10 + 30 / 60 + 0 / 3600)) :=
  claim1_convert_formula_sign.1 10 30 0 "s" (by decide)

/-- C2: For a hemisphere reference whose uppercase is not one of N, S, E,
W, the conversion never returns a signed decimal value: no sign
multiplier is assigned, and on numeric components the call raises
`UnboundLocalError` at the final expression. -/
theorem claim2_invalid_ref_fails (coords : ExifNum × ExifNum × ExifNum) (ref : String)
    (h : pyUpper ref ≠ "N" ∧ pyUpper ref ≠ "S" ∧ pyUpper ref ≠ "E" ∧ pyUpper ref ≠ "W") :
    (∀ q : ℚ, convert_coords_to_decimal coords ref ≠ .ok q) ∧
    (∀ d m s : ℚ, coords = (.numeric d, .numeric m, .numeric s) →
      convert_coords_to_decimal coords ref = .error .unboundLocalError) := by
  obtain ⟨hN, hS, hE, hW⟩ := h
  have hws : ¬(pyUpper ref = "W" ∨ pyUpper ref = "S") := by
    rintro (h | h)
    exacts [hW h, hS h]
  have hen : ¬(pyUpper ref = "E" ∨ pyUpper ref = "N") := by
    rintro (h | h)
    exacts [hE h, hN h]
  constructor
  · intro q
    obtain ⟨a, b, c⟩ := coords
    cases a <;> cases b <;> cases c <;>
      simp [convert_coords_to_decimal, pyFloat, hws, hen]
  · rintro d m s rfl
    rw [convert_numeric_eq, if_neg hws, if_neg hen]

/-- Witness for claim 2 at the concrete input ((1, 2, 3), "X"). -/
theorem claim2_witness :
    convert_coords_to_decimal (.numeric 1, .numeric 2, .numeric 3) "X" =
      .error .unboundLocalError :=
  (claim2_invalid_ref_fails (.numeric 1, .numeric 2, .numeric 3) "X"
    (by decide)).2 1 2 3 rfl

/-- C3 counterexample: a malformed DateTime value (or a non-numeric GPS
coordinate component) does not merely skip the offending file — the
uncaught ValueError aborts the whole batch, so the good photo that
follows produces no record either, although on its own it yields one. -/
theorem claim3_counterexample :
    construct_df [badDatePhoto, goodPhoto] = .error .valueError ∧
    construct_df [badCoordPhoto, goodPhoto] = .error .valueError ∧
    construct_df [goodPhoto] = .ok [goodRecordRaw] :=
  ⟨by decide, by decide, rfl⟩

/-- C3 (amended): a DateTime tag value that does not match the exact
format, or a non-numeric GPS coordinate component, raises `ValueError`
inside the try-block; since only `KeyError` is caught, the error
propagates out of `construct_df` and aborts the whole batch instead of
skipping the single file. -/
theorem claim3_malformed_aborts :
    (∀ (p : Photo) (c1 c2 : ExifNum × ExifNum × ExifNum) (r1 r2 : String)
        (q1 q2 : ℚ) (s : String),
        p.gps = ⟨some c1, some r1, some c2, some r2⟩ →
        convert_coords_to_decimal c1 r1 = .ok q1 →
        convert_coords_to_decimal c2 r2 = .ok q2 →
        p.dateTime = some (.malformed s) →
        buildRecord p = .error .valueError) ∧
    (∀ (p : Photo) (c1 : ExifNum × ExifNum × ExifNum) (r1 : String),
        p.gps.gpsLatitude = some c1 → p.gps.gpsLatitudeRef = some r1 →
        pyFloat c1.1 = .error .valueError →
        buildRecord p = .error .valueError) ∧
    (∀ (ps qs : List Photo) (p : Photo) (rs : List Record),
        construct_df ps = .ok rs →
        pyLower (pySuffix p.name) ∈ [".jpg", ".jpeg", ".heic"] →
        buildRecord p = .error .valueError →
        construct_df (ps ++ p :: qs) = .error .valueError) := by
  refine ⟨buildRecord_valueError_of_malformed, buildRecord_valueError_of_badLat, ?_⟩
  intro ps qs p rs hps hsuf hb
  rw [construct_df_append ps (p :: qs) rs hps,
      construct_df_cons_error p qs .valueError hsuf hb (by decide)]
  rfl

/-- Witness for the amended claim 3 on a concrete batch. -/
theorem claim3_witness :
    construct_df ([] ++ badDatePhoto :: [goodPhoto]) = .error .valueError :=
  claim3_malformed_aborts.2.2 [] [goodPhoto] badDatePhoto [] rfl (by decide)
    (claim3_malformed_aborts.1 badDatePhoto
      (.numeric 10, .numeric 30, .numeric 0) (.numeric 20, .numeric 0, .numeric 0)
      "N" "E" (1 * (10 + 30 / 60 + 0 / 3600)) (1 * (20 + 0 / 60 + 0 / 3600))
      "2022-06-15 10:00:00" rfl rfl rfl rfl)

/-- C4 counterexample: a photo missing `GPSLongitude` whose present
latitude tag has a non-numeric component is not skipped — the batch
aborts with the ValueError raised before the missing key is reached. -/
theorem claim4_counterexample :
    missingLonPhoto.gps.gpsLongitude = none ∧
    construct_df [missingLonPhoto, goodPhoto] = .error .valueError :=
  ⟨rfl, by decide⟩

/-- C4 (amended): a photo missing any of the five required tags is
skipped — no record is emitted for it and the batch continues — provided
the GPS fields that are present and reached first convert without
raising. -/
theorem claim4_missing_tag_skips (ps qs : List Photo) (p : Photo)
    (hmiss : p.gps.gpsLatitude = none ∨ p.gps.gpsLatitudeRef = none ∨
      p.gps.gpsLongitude = none ∨ p.gps.gpsLongitudeRef = none ∨ p.dateTime = none)
    (hok : presentGpsParses p) :
    construct_df (ps ++ p :: qs) = construct_df (ps ++ qs) :=
  construct_df_skip_middle ps qs p (buildRecord_keyError_of_missing p hmiss hok)

/-- Witness for the amended claim 4: a photo with no tags at all is
skipped and the remaining batch is processed unchanged. -/
theorem claim4_witness :
    construct_df ([] ++ missingAllPhoto :: [goodPhoto]) =
      construct_df ([] ++ [goodPhoto]) :=
  claim4_missing_tag_skips [] [goodPhoto] missingAllPhoto (Or.inl rfl)
    ⟨fun c r hc _ => absurd hc (by simp [missingAllPhoto]),
     fun c r hc _ => absurd hc (by simp [missingAllPhoto])⟩

/-- C5 counterexample: with no cache and a nonexistent assets directory,
discovery returns `None` (not an empty result) and `get_df` then fails
with the `TypeError` raised by iterating over `None` — the run crashes. -/
theorem claim5_counterexample :
    get_photos_from_path ⟨false, []⟩ = none ∧
    get_df noAssetsFs = .error .typeError :=
  ⟨rfl, rfl⟩

/-- C5 (amended): for a nonexistent directory, discovery prints a
diagnostic and returns `None` rather than an empty collection, and the
batch path does not absorb this: `get_df` aborts with the `TypeError`
raised when `construct_df` iterates over `None`. -/
theorem claim5_invalid_directory (d : Directory) (exts : List String) (fs : AppFs)
    (hd : d.pathExists = false) (h1 : fs.savedDfPresent = false)
    (h2 : fs.assets.pathExists = false) :
    get_photos_from_path d exts = none ∧ get_df fs = .error .typeError := by
  constructor
  · simp [get_photos_from_path, hd]
  · simp [get_df, h1, construct_df_arg, get_photos_from_path, h2]

/-- Witness for the amended claim 5 on a concrete filesystem state. -/
theorem claim5_witness :
    get_photos_from_path ⟨false, [goodPhoto]⟩ [".png"] = none ∧
    get_df noAssetsFs = .error .typeError :=
  claim5_invalid_directory ⟨false, [goodPhoto]⟩ [".png"] noAssetsFs rfl rfl rfl

/-- Every normalized day value is at least 1. -/
theorem normalizeDays_day_ge_one (rs ns : List Record)
    (h : normalizeDays rs = .ok ns) :
    ∀ x ∈ ns, 1 ≤ x.day := by
  cases rs with
  | nil => simp [normalizeDays] at h
  | cons r rs =>
    obtain ⟨m, _, hle, heq⟩ := normalizeDays_ok r rs
    rw [heq] at h
    simp only [Except.ok.injEq] at h
    subst h
    intro x hx
    rw [List.mem_map] at hx
    obtain ⟨y, hy, rfl⟩ := hx
    have hm := hle y.day (List.mem_map_of_mem Record.day hy)
    show (1 : ℤ) ≤ y.day - m + 1
    omega

/-- C6: day normalization computes the minimum raw day over all records
of the nonempty dataset and remaps every record's day to
`raw - min + 1`; on raw days [15, 17, 15, 20] it yields [1, 3, 1, 6]. -/
theorem claim6_day_normalization :
    (∀ (r : Record) (rs : List Record), ∃ m : ℤ,
        m ∈ (r :: rs).map Record.day ∧
        (∀ d ∈ (r :: rs).map Record.day, m ≤ d) ∧
        normalizeDays (r :: rs) =
          .ok ((r :: rs).map (fun x => { x with day := x.day - m + 1 }))) ∧
    (normalizeDays [dayRec 15, dayRec 17, dayRec 15, dayRec 20]).map
        (List.map Record.day) = .ok [1, 3, 1, 6] := by
  refine ⟨normalizeDays_ok, ?_⟩
  decide

/-- Witness for claim 6 at a concrete record list. -/
theorem claim6_witness :
    ∃ m : ℤ,
      m ∈ [dayRec 15, dayRec 17].map Record.day ∧
      (∀ d ∈ [dayRec 15, dayRec 17].map Record.day, m ≤ d) ∧
      normalizeDays [dayRec 15, dayRec 17] =
        .ok ([dayRec 15, dayRec 17].map (fun x => { x with day := x.day - m + 1 })) :=
  claim6_day_normalization.1 (dayRec 15) [dayRec 17]

/-- C7: every dataset produced by the fresh extraction-and-normalization
path of `get_df` consists of rows obtained from complete records (so
timestamp, latitude and longitude are all present), and every row's day
value is the string form of an integer greater than or equal to 1. -/
theorem claim7_dataset_invariant (fs : AppFs) (rows : List DfRow)
    (hfresh : fs.savedDfPresent = false) (h : get_df fs = .ok rows) :
    ∀ row ∈ rows, ∃ rec : Record,
      row = recordToRow rec ∧ 1 ≤ rec.day ∧ row.day = toString rec.day := by
  unfold get_df at h
  rw [hfresh] at h
  simp only [Bool.false_eq_true, if_false] at h
  cases hc : construct_df_arg (get_photos_from_path fs.assets) with
  | error e => rw [hc] at h; simp at h
  | ok rs =>
    rw [hc] at h
    dsimp only at h
    cases hn : normalizeDays rs with
    | error e => rw [hn] at h; simp at h
    | ok ns =>
      rw [hn] at h
      simp only [Except.ok.injEq] at h
      subst h
      intro row hrow
      rw [List.mem_map] at hrow
      obtain ⟨rec, hrec, rfl⟩ := hrow
      exact ⟨rec, rfl, normalizeDays_day_ge_one rs ns hn rec hrec, rfl⟩

/-- Witness for claim 7 on a concrete run directory and its single row. -/
theorem claim7_witness :
    ∃ rec : Record,
      (⟨"a.jpg", goodDate, 1 * (10 + 30 / 60 + 0 / 3600), 1 * (20 + 0 / 60 + 0 / 3600),
        toString ((15 : ℤ) - (15 - 1))⟩ : DfRow) = recordToRow rec ∧ 1 ≤ rec.day ∧
      (⟨"a.jpg", goodDate, 1 * (10 + 30 / 60 + 0 / 3600), 1 * (20 + 0 / 60 + 0 / 3600),
        toString ((15 : ℤ) - (15 - 1))⟩ : DfRow).day = toString rec.day :=
  claim7_dataset_invariant fs0 rows0 rfl rfl _ (List.Mem.head _)

/-- C9: for an existing directory, discovery returns exactly the
top-level entries whose lowered suffix is one of the accepted defaults
.jpg, .jpeg, .heic (case-insensitive via `lower()`); when no entry
matches, the result is the empty list, not an error. -/
theorem claim9_discovery (d : Directory) (hd : d.pathExists = true) :
    ∃ l, get_photos_from_path d = some l ∧
      (∀ p : Photo, p ∈ l ↔ p ∈ d.listing ∧
        pyLower (pySuffix p.name) ∈ [".jpg", ".jpeg", ".heic"]) ∧
      ((∀ p ∈ d.listing, pyLower (pySuffix p.name) ∉ [".jpg", ".jpeg", ".heic"]) →
        l = []) := by
  refine ⟨d.listing.filter
      (fun p => pyLower (pySuffix p.name) ∈ [".jpg", ".jpeg", ".heic"]), ?_, ?_, ?_⟩
  · simp [get_photos_from_path, hd]
  · intro p
    rw [List.mem_filter]
    simp
  · intro hnone
    rw [List.filter_eq_nil_iff]
    intro p hp
    simpa using hnone p hp

/-- Witness for claim 9 on a directory with one matching and one
non-matching entry. -/
theorem claim9_witness :
    ∃ l, get_photos_from_path ⟨true, [goodPhoto, textFilePhoto]⟩ = some l ∧
      (∀ p : Photo, p ∈ l ↔ p ∈ [goodPhoto, textFilePhoto] ∧
        pyLower (pySuffix p.name) ∈ [".jpg", ".jpeg", ".heic"]) ∧
      ((∀ p ∈ [goodPhoto, textFilePhoto],
          pyLower (pySuffix p.name) ∉ [".jpg", ".jpeg", ".heic"]) → l = []) :=
  claim9_discovery ⟨true, [goodPhoto, textFilePhoto]⟩ rfl

/-- C10: `construct_df` re-checks the extension against the hard-coded
set: its result is unchanged when the photos whose lowered suffix is not
one of .jpg, .jpeg, .heic are removed from the input, and a photo with
another extension on its own yields no record. -/
theorem claim10_extension_recheck :
    (∀ photos : List Photo,
        construct_df photos =
          construct_df (photos.filter
            (fun p => pyLower (pySuffix p.name) ∈ [".jpg", ".jpeg", ".heic"]))) ∧
    (∀ p : Photo, pyLower (pySuffix p.name) ∉ [".jpg", ".jpeg", ".heic"] →
        construct_df [p] = .ok []) := by
  constructor
  · intro photos
    induction photos with
    | nil => rfl
    | cons p ps ih =>
      by_cases hs : pyLower (pySuffix p.name) ∈ [".jpg", ".jpeg", ".heic"]
      · rw [List.filter_cons_of_pos (by simpa using hs)]
        exact construct_df_cons_congr p ps _ ih
      · rw [List.filter_cons_of_neg (by simpa using hs), construct_df_cons_skip p ps hs]
        exact ih
  · intro p hp
    rw [construct_df_cons_skip p [] hp]
    rfl

/-- Witness for claim 10: a .txt file alone yields no record. -/
theorem claim10_witness : construct_df [textFilePhoto] = .ok [] :=
  claim10_extension_recheck.2 textFilePhoto (by decide)
